import Mathlib

set_option maxHeartbeats 1000000
set_option maxRecDepth 100000

/-!
Shallow embedding of `src/main.py` (ChemBond Tutor API).

The repository is a FastAPI app with three handlers (`chat`, `generate_quiz`,
`analyze_molecule`) over a static molecule knowledge base, plus a pure
Lewis-diagram renderer `make_lewis_svg`. The embedding below translates each
handler body; HTTP plumbing (CORS, routing, the `/test` health check) carries
no logic and is not modelled. Python strings are Lean `String`s, Python ints
are `Int`/`Nat`, Python floats in the data (all exact tenths) are `ℚ`, and
`dict`s are association lists in the source's (insertion) order. Fallible
operations (`list.index`, out-of-range indexing) return `Option`. The
`random.shuffle` calls are modelled as explicit function parameters, so that
theorems quantify over the permutations they may produce.
-/

/-- A record of `MOLECULE_DB` in `src/main.py`. Every entry of the source
dict defines all of these keys, so the fields are not optional; `bond_angle`
is `None` for some molecules and hence an `Option`. -/
structure MoleculeRecord where
  name : String
  bond_type : String
  bond_angle : Option ℚ
  single_bonds : Nat
  double_bonds : Nat
  shape : String
  lewis : String
  lewis_text : String
  explanation : String
  lewis_ascii : String
  deriving DecidableEq

/-- `MOLECULE_DB` of `src/main.py`, as an association list in the dict
literal's insertion order (Python 3.7+ dicts preserve it, and the chat
handler iterates in that order). -/
def MOLECULE_DB : List (String × MoleculeRecord) :=
  [ ("H2O",
     { name := "Water"
       bond_type := "Polar covalent"
       bond_angle := some (104.5 : ℚ)
       single_bonds := 2
       double_bonds := 0
       shape := "Bent (V-shaped)"
       lewis := "H–O–H with two lone pairs on oxygen"
       lewis_text := "Lewis Structure of H2O: Oxygen in the center with two single bonds to H and two lone pairs on O."
       explanation := "Oxygen forms two polar covalent bonds with hydrogen. Lone pairs on O push bonds, giving a bent shape and polarity."
       lewis_ascii := "H :O: H\n   .. .." }),
    ("CO2",
     { name := "Carbon dioxide"
       bond_type := "Non‑polar covalent (double bonds)"
       bond_angle := some (180.0 : ℚ)
       single_bonds := 0
       double_bonds := 2
       shape := "Linear"
       lewis := "O=C=O"
       lewis_text := "Lewis Structure of CO2: Carbon in center with double bonds to two oxygens (O=C=O)."
       explanation := "Two equal C=O bonds arranged linearly cancel dipoles, so the molecule is non‑polar."
       lewis_ascii := "O = C = O" }),
    ("CH4",
     { name := "Methane"
       bond_type := "Non‑polar covalent"
       bond_angle := some (109.5 : ℚ)
       single_bonds := 4
       double_bonds := 0
       shape := "Tetrahedral"
       lewis := "Carbon in center with four single bonds to H"
       lewis_text := "Lewis Structure of CH4: Carbon in center with four single bonds to hydrogens (tetrahedral)."
       explanation := "Four equivalent C–H bonds arranged tetrahedrally make CH4 non‑polar overall."
       lewis_ascii := "    H\n    |\nH — C — H\n    |\n    H" }),
    ("NH3",
     { name := "Ammonia"
       bond_type := "Polar covalent"
       bond_angle := some (107.0 : ℚ)
       single_bonds := 3
       double_bonds := 0
       shape := "Trigonal pyramidal"
       lewis := "N with three single bonds to H and one lone pair"
       lewis_text := "Lewis Structure of NH3: Nitrogen in center with three single bonds to H and one lone pair on N."
       explanation := "Lone pair on nitrogen compresses H–N–H angles; N–H bonds are polar making NH3 polar."
       lewis_ascii := "   H\n   |\nH–N: \n   |\n   H" }),
    ("NaCl",
     { name := "Sodium chloride"
       bond_type := "Ionic"
       bond_angle := none
       single_bonds := 0
       double_bonds := 0
       shape := "Ionic lattice (not molecular)"
       lewis := "Na+ and Cl− ions"
       lewis_text := "Lewis Structure of NaCl: Na donates one electron to Cl forming Na+ and Cl−; ionic lattice in solid."
       explanation := "Metal (Na) transfers an electron to nonmetal (Cl), forming oppositely charged ions that attract."
       lewis_ascii := "[Na]+  :Cl:−" }),
    ("HF",
     { name := "Hydrogen fluoride"
       bond_type := "Polar covalent with strong hydrogen bonding between molecules"
       bond_angle := none
       single_bonds := 1
       double_bonds := 0
       shape := "Diatomic"
       lewis := "H–F with three lone pairs on F"
       lewis_text := "Lewis Structure of HF: Single bond H–F with three lone pairs on F."
       explanation := "Large electronegativity difference makes the bond highly polar."
       lewis_ascii := "H–F:::" }),
    ("O2",
     { name := "Oxygen"
       bond_type := "Non‑polar covalent (double bond)"
       bond_angle := none
       single_bonds := 0
       double_bonds := 1
       shape := "Diatomic"
       lewis := "O=O"
       lewis_text := "Lewis Structure of O2: Double bond between two oxygens."
       explanation := "Two identical atoms share electrons equally."
       lewis_ascii := "O = O" }),
    ("N2",
     { name := "Nitrogen"
       bond_type := "Non‑polar covalent (triple bond)"
       bond_angle := none
       single_bonds := 0
       double_bonds := 0
       shape := "Diatomic"
       lewis := "N≡N"
       lewis_text := "Lewis Structure of N2: Triple bond between two nitrogens."
       explanation := "Two identical atoms share three pairs of electrons equally."
       lewis_ascii := "N ≡ N" }),
    ("SO2",
     { name := "Sulfur dioxide"
       bond_type := "Polar covalent (resonance; average bond order >1)"
       bond_angle := some (119.0 : ℚ)
       single_bonds := 0
       double_bonds := 2
       shape := "Bent"
       lewis := "O=S=O (resonance forms)"
       lewis_text := "Lewis Structure of SO2: Bent molecule with resonance between S=O bonds."
       explanation := "Electron domains around S make a bent shape; polar due to asymmetry."
       lewis_ascii := "O = S = O" }) ]

/-- The middle-dot substitution of `normalize_formula`:
`.replace("·", ".")` applied characterwise (the pattern and the
replacement are single characters). -/
def dotRepl (c : Char) : Char := if c = '·' then '.' else c

/-- `normalize_formula` of `src/main.py`:
`s.replace(" ", "").replace("·", ".").upper()`. A single-character
`str.replace` with an empty replacement is a filter and with a
one-character replacement a map, and `str.upper()` is characterwise on
the ASCII formulas this app works with, so the three steps are embedded
as filter-then-map-then-map over the string's characters. -/
def normalize_formula (s : String) : String :=
  String.mk (((s.data.filter (fun c => c ≠ ' ')).map dotRepl).map Char.toUpper)

/-- `MOLECULE_DB.get(f)`: first-match lookup in the association list
(keys are distinct, so this is the dict lookup). -/
def lookupMolecule (f : String) : Option MoleculeRecord :=
  List.lookup f MOLECULE_DB

/-! ### The diagram renderer `make_lewis_svg` -/

/-- `padding = 16` in `make_lewis_svg`. -/
def svgPadding : Nat := 16

/-- `line_height = 22` in `make_lewis_svg`. -/
def svgLineHeight : Nat := 22

/-- `ascii_diagram.split("\n")` on the character list: splits at every
newline and always yields at least one (possibly empty) line, exactly as
Python's `str.split` with an explicit separator. -/
def split_nl : List Char → List (List Char)
  | [] => [[]]
  | c :: cs =>
    if c = '\n' then [] :: split_nl cs
    else
      match split_nl cs with
      | [] => [[c]]
      | r :: rs => (c :: r) :: rs

/-- `max(len(line) for line in lines)`. `split_nl` never returns an empty
list, so the Python `max` never sees an empty sequence and equals this
fold (line lengths are nonnegative). -/
def maxLineLen (ls : List (List Char)) : Nat :=
  ls.foldr (fun l m => max l.length m) 0

/-- The `esc` helper of `make_lewis_svg` on one character. The source
chains `t.replace("&", "&amp;").replace("<", "&lt;").replace(">", "&gt;")`;
since no replacement string contains a later pattern's character in a
position a later pass could rewrite beyond the intended one, the chain
equals this characterwise substitution. -/
def escChar (c : Char) : String :=
  if c = '&' then "&amp;"
  else if c = '<' then "&lt;"
  else if c = '>' then "&gt;"
  else String.singleton c

/-- `esc(t)` of `make_lewis_svg`. -/
def esc (l : List Char) : String :=
  String.join (l.map escChar)

/-- Canvas width: `max(len(line) for line in lines) * 12 + padding * 2`. -/
def svgWidth (lines : List (List Char)) : Nat :=
  maxLineLen lines * 12 + svgPadding * 2

/-- Canvas height: `len(lines) * line_height + padding * 2`. -/
def svgHeight (lines : List (List Char)) : Nat :=
  lines.length * svgLineHeight + svgPadding * 2

/-- One element of `text_elems`:
`f"<text x='{padding}' y='{y}' font-family='IBM Plex Mono, monospace' font-size='18'>{esc(line)}</text>"`. -/
def textElem (y : Nat) (line : List Char) : String :=
  "<text x='" ++ toString svgPadding ++ "' y='" ++ toString y ++
    "' font-family='IBM Plex Mono, monospace' font-size='18'>" ++ esc line ++ "</text>"

/-- `''.join(text_elems)` where `text_elems[i]` uses
`y = padding + (i + 1) * line_height`. -/
def svgTextElems (lines : List (List Char)) : String :=
  String.join (lines.enum.map (fun p => textElem (svgPadding + (p.1 + 1) * svgLineHeight) p.2))

/-- The SVG document of `make_lewis_svg` after the trailing `.strip()`.
The f-string template starts with a newline and indentation and ends with
a newline and indentation, and its body starts with `<svg` and ends with
`</svg>`, so `.strip()` removes exactly that template whitespace. -/
def svgMarkup (lines : List (List Char)) : String :=
  "<svg xmlns='http://www.w3.org/2000/svg' width='" ++ toString (svgWidth lines) ++
    "' height='" ++ toString (svgHeight lines) ++ "'>\n      <rect x='0' y='0' width='" ++
    toString (svgWidth lines) ++ "' height='" ++ toString (svgHeight lines) ++
    "' fill='white' stroke='#e5e7eb'/>\n      " ++ svgTextElems lines ++ "\n    </svg>"

/-- UTF-8 encoding of one character as byte values (`svg.encode("utf-8")`
acts on each code point like this). -/
def utf8Char (c : Char) : List Nat :=
  if c.toNat < 128 then [c.toNat]
  else if c.toNat < 2048 then [192 + c.toNat / 64, 128 + c.toNat % 64]
  else if c.toNat < 65536 then [224 + c.toNat / 4096, 128 + c.toNat / 64 % 64, 128 + c.toNat % 64]
  else [240 + c.toNat / 262144, 128 + c.toNat / 4096 % 64, 128 + c.toNat / 64 % 64, 128 + c.toNat % 64]

/-- `svg.encode("utf-8")` as the list of byte values. -/
def utf8Bytes (s : String) : List Nat :=
  (s.data.map utf8Char).flatten

/-- The base64 alphabet of RFC 4648, as `base64.b64encode` uses it. -/
def b64Alphabet : List Char :=
  "ABCDEFGHIJKLMNOPQRSTUVWXYZabcdefghijklmnopqrstuvwxyz0123456789+/".data

/-- Digit `n` (for `n < 64`) of the base64 alphabet. -/
def b64Digit (n : Nat) : Char := b64Alphabet.getD n '?'

/-- `base64.b64encode` on a list of byte values: standard base64 with
`=` padding. -/
def b64Encode : List Nat → List Char
  | a :: b :: c :: rest =>
    b64Digit (a / 4) :: b64Digit (a % 4 * 16 + b / 16) ::
      b64Digit (b % 16 * 4 + c / 64) :: b64Digit (c % 64) :: b64Encode rest
  | [a, b] => [b64Digit (a / 4), b64Digit (a % 4 * 16 + b / 16), b64Digit (b % 16 * 4), '=']
  | [a] => [b64Digit (a / 4), b64Digit (a % 4 * 16), '=', '=']
  | [] => []

/-- `make_lewis_svg(formula, ascii_diagram)` of `src/main.py`. The
`formula` argument is accepted and unused, exactly as in the source. -/
def make_lewis_svg (formula : String) (ascii_diagram : String) : String :=
  let lines := split_nl ascii_diagram.data
  "data:image/svg+xml;base64," ++ String.mk (b64Encode (utf8Bytes (svgMarkup lines)))

/-! ### Verification-side base64 decoder (not part of the source): used to
state that the rendered artifact's payload decodes back to the SVG bytes. -/

/-- First index of `a` in a list (`list.index` in Python, `none` when
absent). Also used for the base64 digit value below. -/
def idxOf? {α : Type} [DecidableEq α] (a : α) : List α → Option Nat
  | [] => none
  | b :: bs => if b = a then some 0 else (idxOf? a bs).map (· + 1)

/-- The value of a base64 digit, `none` for a character outside the
alphabet (in particular for `=`). -/
def b64Val (c : Char) : Option Nat := idxOf? c b64Alphabet

/-- Standard base64 decoding to byte values; `none` on any malformed
input (a group of four characters, with `=` padding only at the end of
the last group). -/
def b64Decode : List Char → Option (List Nat)
  | [] => some []
  | c1 :: c2 :: c3 :: c4 :: rest =>
    match b64Val c1, b64Val c2 with
    | some v1, some v2 =>
      if c3 = '=' then
        if c4 = '=' ∧ rest = [] then some [v1 * 4 + v2 / 16] else none
      else
        match b64Val c3 with
        | some v3 =>
          if c4 = '=' then
            if rest = [] then some [v1 * 4 + v2 / 16, v2 % 16 * 16 + v3 / 4] else none
          else
            match b64Val c4, b64Decode rest with
            | some v4, some bs =>
              some ((v1 * 4 + v2 / 16) :: (v2 % 16 * 16 + v3 / 4) :: (v3 % 4 * 64 + v4) :: bs)
            | _, _ => none
        | none => none
    | _, _ => none
  | _ => none

/-! ### The chat handler -/

/-- Python's default `str.strip()` whitespace set (the ASCII part, which
covers every input this development evaluates). -/
def pyWhitespace (c : Char) : Bool :=
  c = ' ' || c = '\t' || c = '\n' || c = '\r' || c = '\x0b' || c = '\x0c'

/-- Python's `str.strip()`: drop leading and trailing whitespace. -/
def pyStrip (s : String) : String :=
  String.mk (((s.data.dropWhile pyWhitespace).reverse.dropWhile pyWhitespace).reverse)

/-- Python's `str.lower()`, characterwise (ASCII case folding, which is
what the knowledge-base keys and names need). -/
def pyLower (s : String) : String :=
  String.mk (s.data.map Char.toLower)

/-- Python's `needle in hay` substring test on strings. -/
def containsSub (hay needle : List Char) : Bool :=
  if needle.isPrefixOf hay then true
  else
    match hay with
    | [] => false
    | _ :: t => containsSub t needle

/-- `strContains hay needle` is Python's `needle in hay` on `String`s. -/
def strContains (hay needle : String) : Bool :=
  containsSub hay.data needle.data

/-- The `concepts` dict of the `chat` handler, in insertion order. -/
def concepts : List (String × String) :=
  [ ("ionic", "Ionic bonding happens when a metal transfers electrons to a nonmetal, forming oppositely charged ions that attract. Example: NaCl (sodium chloride)."),
    ("covalent", "Covalent bonding is when two nonmetals share electron pairs to fill their outer shells. Example: H2 (hydrogen), CH4 (methane)."),
    ("metallic", "Metallic bonding is a lattice of positive metal ions immersed in a 'sea' of delocalized electrons. This explains metals' conductivity and malleability."),
    ("coordinate", "A coordinate (dative) covalent bond is a covalent bond where both shared electrons come from the same atom. Example: NH4+ forms when NH3 donates a lone pair to H+."),
    ("hydrogen", "Hydrogen bonding is a strong dipole–dipole attraction between H attached to O, N, or F and a lone pair on a neighboring O, N, or F. Example: water molecules hydrogen-bond to each other."),
    ("vsepr", "VSEPR theory predicts 3D shapes using electron pair repulsions: electron domains arrange to minimize repulsion (e.g., linear 180°, trigonal planar 120°, tetrahedral 109.5°).") ]

/-- Python's `str(float)` for the nonnegative exact-tenths values stored in
`MOLECULE_DB` (e.g. `104.5` prints as `"104.5"`, `180.0` as `"180.0"`). -/
def pyFloatStr (q : ℚ) : String :=
  toString ((q * 10).num.toNat / 10) ++ "." ++ toString ((q * 10).num.toNat % 10)

/-- The `chat` handler of `src/main.py`. Note the source's conditional
expression: because adjacent f-string literals concatenate before
`... if ... else ...` applies, `reply` is the full three-line header only
when `bond_angle` is not `None`, and is just the single
"Bond Angle: Not applicable ..." line otherwise. -/
def chat (message : String) : String :=
  let q := pyLower (pyStrip message)
  match MOLECULE_DB.find? (fun kd => strContains q (pyLower kd.1) || strContains q (pyLower kd.2.name)) with
  | some kd =>
    let reply :=
      match kd.2.bond_angle with
      | some ang =>
        "Molecule: " ++ kd.1 ++ "\nType of Bond: " ++ kd.2.bond_type ++
          "\nBond Angle: " ++ pyFloatStr ang ++ "°"
      | none => "Bond Angle: Not applicable for diatomic/ionic lattice"
    reply ++ "\nExplanation: " ++ kd.2.explanation
  | none =>
    match concepts.find? (fun td => strContains q td.1) with
    | some td => td.2
    | none =>
      if strContains q "what is" || strContains q "explain" || strContains q "define" then
        "I can help with bonding concepts (ionic, covalent, metallic, coordinate, hydrogen) and common molecules like H2O, CO2, CH4, NH3, and NaCl. Ask: 'Explain ionic bonding' or 'Why is H2O polar?'"
      else
        "Great question! Could you specify the concept (e.g., ionic bonding) or a molecule (e.g., H2O) you want to learn about?"

/-! ### The quiz generator -/

/-- One entry of `QUIZ_BANK` (keys `q`, `options`, `a`, `e`). -/
structure QuizTemplate where
  q : String
  options : List String
  a : Nat
  e : String
  deriving DecidableEq

/-- A response item (`QuizItem` Pydantic model). -/
structure QuizItem where
  question : String
  options : List String
  correct_index : Nat
  explanation : String
  deriving DecidableEq

/-- `QUIZ_BANK` of `src/main.py`, in insertion order. -/
def QUIZ_BANK : List (String × List QuizTemplate) :=
  [ ("Ionic Bonding",
     [ { q := "Which type of bond is formed between sodium and chlorine?"
         options := ["Ionic", "Covalent", "Metallic", "Hydrogen"]
         a := 0
         e := "Na (metal) transfers an electron to Cl (nonmetal) forming ions." },
       { q := "What holds ions together in an ionic compound?"
         options := ["Electrostatic attraction", "Electron sharing", "Magnetic forces", "Hydrogen bonds"]
         a := 0
         e := "Oppositely charged ions attract strongly." } ]),
    ("Covalent Bonding",
     [ { q := "Which type of elements typically form covalent bonds?"
         options := ["Two nonmetals", "Metal and nonmetal", "Two metals", "Metal and metalloid"]
         a := 0
         e := "Covalent bonds usually form between nonmetals sharing electrons." },
       { q := "In CO2, what type of bonds connect C and O?"
         options := ["Double covalent", "Single covalent", "Ionic", "Metallic"]
         a := 0
         e := "Each oxygen shares two electrons with carbon (O=C=O)." } ]),
    ("VSEPR Theory",
     [ { q := "Ideal bond angle in a tetrahedral geometry is…"
         options := ["109.5°", "180°", "120°", "90°"]
         a := 0
         e := "Tetrahedral electron domain geometry gives 109.5°." },
       { q := "The shape of CO2 according to VSEPR is…"
         options := ["Linear", "Bent", "Trigonal pyramidal", "Tetrahedral"]
         a := 0
         e := "Two electron domains around carbon → linear." } ]) ]

/-- The default two-template bank substituted when the topic is not found
(its first question interpolates the topic). -/
def fallbackBank (topic : String) : List QuizTemplate :=
  [ { q := "Basic question on " ++ topic ++ ": Covalent bonds are formed by…"
      options := ["Sharing electrons", "Transferring electrons", "Sharing protons", "Magnetic forces"]
      a := 0
      e := "Covalent = sharing of electron pairs." },
    { q := "Ionic bonds usually form between…"
      options := ["Metals and nonmetals", "Two nonmetals", "Two metals", "Noble gases"]
      a := 0
      e := "Metal + nonmetal → electron transfer." } ]

/-- `bank = QUIZ_BANK.get(topic)` followed by `if not bank:` (which also
catches an empty list) substituting the default bank. `topic` is already
trimmed here. -/
def bankFor (topic : String) : List QuizTemplate :=
  match List.lookup topic QUIZ_BANK with
  | some b => if b = [] then fallbackBank topic else b
  | none => fallbackBank topic

/-- `count = max(1, min(10, req.count or 5))`: Python's `or` replaces a
falsy (zero) count by the default 5 before clamping. -/
def clampCount (c : Int) : Nat :=
  (max 1 (min 10 (if c = 0 then 5 else c))).toNat

/-- The per-template body of the loop in `generate_quiz`: copy the options,
record the originally-correct text (`options[item["a"]]`, `none` on an
out-of-range index), shuffle the copy, and re-find the text's first index
(`options.index`, `none` when absent). The shuffle is a parameter. -/
def mkQuizItem (shuffle : List String → List String) (t : QuizTemplate) : Option QuizItem :=
  match t.options[t.a]? with
  | none => none
  | some correct_text =>
    match idxOf? correct_text (shuffle t.options) with
    | none => none
    | some ci =>
      some { question := t.q, options := shuffle t.options, correct_index := ci, explanation := t.e }

/-- The loop of `generate_quiz` over the selected templates;
`so i` is the options-shuffle used at position `i`. -/
def mkItems (so : Nat → List String → List String) : Nat → List QuizTemplate → Option (List QuizItem)
  | _, [] => some []
  | i, t :: ts =>
    match mkQuizItem (so i) t, mkItems so (i + 1) ts with
    | some item, some rest => some (item :: rest)
    | _, _ => none

/-- `generate_quiz` of `src/main.py`. `sp` models `random.shuffle(pool)`
and `so i` the `random.shuffle(options)` call of the `i`-th selected
template; theorems below quantify over them (as permutations). The pool is
`bank * ((count + len(bank) - 1) // len(bank))`. -/
def generate_quiz (topic : String) (count : Int)
    (sp : List QuizTemplate → List QuizTemplate)
    (so : Nat → List String → List String) : Option (List QuizItem) :=
  let t := pyStrip topic
  let n := clampCount count
  let bank := bankFor t
  let pool := (List.replicate ((n + bank.length - 1) / bank.length) bank).flatten
  mkItems so 0 ((sp pool).take n)

/-! ### The molecule analyzer -/

/-- The `MoleculeAnalysis` response model. -/
structure MoleculeAnalysis where
  formula : String
  name : Option String
  bond_type : String
  bond_angle : Option ℚ
  single_bonds : Nat
  double_bonds : Nat
  shape : Option String
  explanation : String
  lewis_text : String
  lewis_ascii : String
  lewis_svg : String
  deriving DecidableEq

/-- `analyze_molecule` of `src/main.py`. On a hit every `data.get(k, d)`
finds its key (all records define all keys), so the defaults are dropped;
on a miss the heuristic `guess` record is synthesized and rendered. -/
def analyze_molecule (formula : String) : MoleculeAnalysis :=
  let f := normalize_formula formula
  match lookupMolecule f with
  | none =>
    { formula := f
      name := none
      bond_type := "Covalent (heuristic)"
      bond_angle := none
      single_bonds := 0
      double_bonds := 0
      shape := none
      explanation := "This is a generic estimate. For exact details, try a common molecule from the examples."
      lewis_text := "Lewis structure for " ++ f ++ " is not in the quick database. Try H2O, CO2, CH4, NH3, or NaCl."
      lewis_ascii := f
      lewis_svg := make_lewis_svg f f }
  | some data =>
    { formula := f
      name := some data.name
      bond_type := data.bond_type
      bond_angle := data.bond_angle
      single_bonds := data.single_bonds
      double_bonds := data.double_bonds
      shape := some data.shape
      explanation := data.explanation
      lewis_text := data.lewis_text
      lewis_ascii := data.lewis_ascii
      lewis_svg := make_lewis_svg f data.lewis_ascii }

/-- The quiz item `generate_quiz "Ionic Bonding" 1` produces under
identity shuffles (used as a concrete evaluation point). -/
def sampleQuizItem : QuizItem :=
  { question := "Which type of bond is formed between sodium and chlorine?"
    options := ["Ionic", "Covalent", "Metallic", "Hydrogen"]
    correct_index := 0
    explanation := "Na (metal) transfers an electron to Cl (nonmetal) forming ions." }

/-! ## Helper lemmas -/

/-- `make_lewis_svg` output is never the empty string: it starts with the
26-character data-URI marker. -/
theorem make_lewis_svg_ne_empty (f a : String) : make_lewis_svg f a ≠ "" := by
  intro h
  have hlen := congrArg String.length h
  rw [make_lewis_svg, String.length_append] at hlen
  simp at hlen
  exact absurd hlen.1 (by decide)

/-- Every base64 digit decodes back to its value. -/
theorem b64Val_b64Digit : ∀ n : Nat, n < 64 → b64Val (b64Digit n) = some n := by decide

/-- No base64 digit is the padding character. -/
theorem b64Digit_ne_pad : ∀ n : Nat, n < 64 → b64Digit n ≠ '=' := by decide

/-- Decoding inverts encoding on lists of byte values. -/
theorem b64_roundtrip : ∀ bs : List Nat, (∀ b ∈ bs, b < 256) → b64Decode (b64Encode bs) = some bs
  | [], _ => rfl
  | [a], h => by
    have ha : a < 256 := h a (by simp)
    rw [b64Encode, b64Decode]
    rw [b64Val_b64Digit _ (by omega), b64Val_b64Digit _ (by omega)]
    dsimp only
    rw [if_pos rfl, if_pos ⟨rfl, rfl⟩]
    congr 2
    omega
  | [a, b], h => by
    have ha : a < 256 := h a (by simp)
    have hb : b < 256 := h b (by simp)
    rw [b64Encode, b64Decode]
    rw [b64Val_b64Digit _ (by omega), b64Val_b64Digit _ (by omega)]
    dsimp only
    rw [if_neg (b64Digit_ne_pad _ (by omega))]
    rw [b64Val_b64Digit _ (by omega)]
    dsimp only
    rw [if_pos rfl, if_pos rfl]
    congr 3
    · omega
    · omega
  | a :: b :: c :: d :: rest, h => by
    have ha : a < 256 := h a (by simp)
    have hb : b < 256 := h b (by simp)
    have hc : c < 256 := h c (by simp)
    have ih := b64_roundtrip (d :: rest) (fun x hx => h x (by simp at hx ⊢; tauto))
    rw [b64Encode, b64Decode]
    rw [b64Val_b64Digit _ (by omega), b64Val_b64Digit _ (by omega)]
    dsimp only
    rw [if_neg (b64Digit_ne_pad _ (by omega))]
    rw [b64Val_b64Digit _ (by omega)]
    dsimp only
    rw [if_neg (b64Digit_ne_pad _ (by omega))]
    rw [b64Val_b64Digit _ (by omega), ih]
    dsimp only
    congr 4
    · omega
    · omega
    · omega
  | [a, b, c], h => by
    have ha : a < 256 := h a (by simp)
    have hb : b < 256 := h b (by simp)
    have hc : c < 256 := h c (by simp)
    have ih := b64_roundtrip [] (by simp)
    rw [b64Encode, b64Decode]
    rw [b64Val_b64Digit _ (by omega), b64Val_b64Digit _ (by omega)]
    dsimp only
    rw [if_neg (b64Digit_ne_pad _ (by omega))]
    rw [b64Val_b64Digit _ (by omega)]
    dsimp only
    rw [if_neg (b64Digit_ne_pad _ (by omega))]
    rw [b64Val_b64Digit _ (by omega), ih]
    dsimp only
    congr 4
    · omega
    · omega
    · omega

/-- Every UTF-8 byte of a character is below 256. -/
theorem utf8Char_lt (c : Char) : ∀ b ∈ utf8Char c, b < 256 := by
  intro b hb
  have hv : c.toNat < 1114112 := by
    have h := c.valid
    rcases h with h | ⟨_, h⟩ <;> exact Nat.lt_of_lt_of_le h (by norm_num)
  unfold utf8Char at hb
  split at hb
  · simp at hb; omega
  · split at hb
    · simp at hb; rcases hb with hb | hb <;> omega
    · split at hb
      · simp at hb; rcases hb with hb | hb | hb <;> omega
      · simp at hb; rcases hb with hb | hb | hb | hb <;> omega

/-- Every byte of a UTF-8 encoded string is below 256. -/
theorem utf8Bytes_lt (s : String) : ∀ b ∈ utf8Bytes s, b < 256 := by
  intro b hb
  rw [utf8Bytes, List.mem_flatten] at hb
  obtain ⟨l, hl, hbl⟩ := hb
  rw [List.mem_map] at hl
  obtain ⟨c, _, rfl⟩ := hl
  exact utf8Char_lt c b hbl

/-- Appending a space anywhere in the input does not change the
normalized formula. -/
theorem normalize_formula_space_insensitive (s t : String) :
    normalize_formula (s ++ " " ++ t) = normalize_formula (s ++ t) := by
  simp [normalize_formula, String.data_append, List.filter_append]

/-! ## Claim theorems -/

/-- C1 (code bug): the spec says every molecule reply contains the molecule
key, its bond classification, the angle line, and the explanation. The
code's conditional expression binds over the concatenated f-strings, so
when `bond_angle` is `None` the whole header collapses to the single
"Bond Angle: Not applicable ..." line: the reply to "Tell me about NaCl"
contains neither "Molecule: NaCl" nor the bond classification "Ionic".
The spec's own H2O example does hold. -/
theorem chat_reply_missing_fields_when_angle_none :
    chat "Tell me about NaCl" =
      "Bond Angle: Not applicable for diatomic/ionic lattice\nExplanation: Metal (Na) transfers an electron to nonmetal (Cl), forming oppositely charged ions that attract." ∧
    strContains (chat "Tell me about NaCl") "Molecule: NaCl" = false ∧
    strContains (chat "Tell me about NaCl") "Ionic" = false ∧
    (chat "Why is H2O polar?").data.take 13 = "Molecule: H2O".data ∧
    strContains (chat "Why is H2O polar?") "Polar covalent" = true := by
  refine ⟨?_, ?_, ?_, ?_, ?_⟩ <;> decide

/-- C5 counterexample: normalization does not strip all whitespace, only
the space character, so a formula with a tab is not folded onto its
spaceless form and misses the knowledge base. -/
theorem normalize_keeps_tab :
    normalize_formula "h2o\t" = "H2O\t" ∧ ("H2O\t" : String) ≠ "H2O" ∧
    lookupMolecule (normalize_formula "h2o\t") = none ∧
    (lookupMolecule (normalize_formula "h2o")).isSome = true := by
  refine ⟨by decide, by decide, by decide, by rfl⟩

/-- C5 (amended): normalization removes all space characters (U+0020
only; other whitespace such as tab is kept), replaces middle dots with
'.', and upper-cases, so lookup is insensitive to spaces and to the case
of the letters: removing a space anywhere changes nothing, the middle dot
becomes '.', and lookups of "h2o", " H2O " and "H2O" all yield the same
record of the knowledge base. -/
theorem normalize_space_case_lookup :
    (∀ s t : String, normalize_formula (s ++ " " ++ t) = normalize_formula (s ++ t)) ∧
    normalize_formula "·" = "." ∧
    lookupMolecule (normalize_formula "h2o") = lookupMolecule (normalize_formula " H2O ") ∧
    lookupMolecule (normalize_formula " H2O ") = lookupMolecule (normalize_formula "H2O") ∧
    lookupMolecule (normalize_formula "H2O") = List.lookup "H2O" MOLECULE_DB ∧
    (List.lookup "H2O" MOLECULE_DB).isSome = true := by
  exact ⟨normalize_formula_space_insensitive, by decide, by rfl, by rfl, by rfl, by rfl⟩

/-- C6: `analyze("h2o")` reports the water record's angle 104.5 and shape
"Bent (V-shaped)"; for every formula whose normalization misses the
knowledge base the analyzer returns the heuristic record: bond type
"Covalent (heuristic)", zero bond counts, no angle, no shape, ASCII art
equal to the normalized formula, and a non-empty rendered diagram. -/
theorem analyze_known_and_unknown :
    (analyze_molecule "h2o").bond_angle = some (104.5 : ℚ) ∧
    (analyze_molecule "h2o").shape = some "Bent (V-shaped)" ∧
    ∀ s : String, lookupMolecule (normalize_formula s) = none →
      (analyze_molecule s).bond_type = "Covalent (heuristic)" ∧
      (analyze_molecule s).single_bonds = 0 ∧
      (analyze_molecule s).double_bonds = 0 ∧
      (analyze_molecule s).bond_angle = none ∧
      (analyze_molecule s).shape = none ∧
      (analyze_molecule s).lewis_ascii = normalize_formula s ∧
      (analyze_molecule s).lewis_svg ≠ "" := by
  refine ⟨by rfl, by rfl, ?_⟩
  intro s h
  rw [analyze_molecule, h]
  refine ⟨rfl, rfl, rfl, rfl, rfl, rfl, ?_⟩
  exact make_lewis_svg_ne_empty (normalize_formula s) (normalize_formula s)

/-- C6 witness: the heuristic branch evaluated at the spec's example
"XYZ123". -/
theorem analyze_unknown_witness :
    (analyze_molecule "XYZ123").bond_type = "Covalent (heuristic)" ∧
    (analyze_molecule "XYZ123").single_bonds = 0 ∧
    (analyze_molecule "XYZ123").double_bonds = 0 ∧
    (analyze_molecule "XYZ123").bond_angle = none ∧
    (analyze_molecule "XYZ123").shape = none ∧
    (analyze_molecule "XYZ123").lewis_ascii = normalize_formula "XYZ123" ∧
    (analyze_molecule "XYZ123").lewis_svg ≠ "" :=
  analyze_known_and_unknown.2.2 "XYZ123" (by decide)

/-- C7: the diagram renderer is a pure function of its input: two
invocations of `make_lewis_svg` on identical label and ASCII art yield
the same (byte-identical) data URI — the embedding is a function, with
no random or time-dependent inputs anywhere in its body. -/
theorem render_deterministic (label art : String) :
    make_lewis_svg label art = make_lewis_svg label art := rfl

/-- C9: the renderer is total and its output is well-formed for every
input, the empty string included: the canvas dimensions are positive
(there is no division anywhere) and the result is a data-URI that is
never empty. -/
theorem render_total_positive_dims (f a : String) :
    0 < svgWidth (split_nl a.data) ∧ 0 < svgHeight (split_nl a.data) ∧
    make_lewis_svg f a ≠ "" ∧
    ∃ payload : String, make_lewis_svg f a = "data:image/svg+xml;base64," ++ payload := by
  refine ⟨?_, ?_, make_lewis_svg_ne_empty f a, ⟨_, rfl⟩⟩
  · unfold svgWidth svgPadding
    omega
  · unfold svgHeight svgPadding
    omega

/-- C10 counterexample: for a whitespace-only formula made of a tab the
normalized key is the tab itself, not the empty string, so the heuristic
fallback's formula is "\t" and not "". -/
theorem analyze_tab_formula_not_empty :
    (analyze_molecule "\t").formula = "\t" ∧ ("\t" : String) ≠ "" := by
  refine ⟨?_, ?_⟩ <;> decide

/-- C10 (amended): for an empty or space-only formula (spaces are the only
whitespace normalization removes), analyze does not fail: the key
normalizes to the empty string, misses the knowledge base, and the
heuristic fallback is returned with formula and ASCII art equal to the
empty string, rendered as a diagram of one empty line. -/
theorem analyze_empty_or_space_formula (s : String) (hs : ∀ c ∈ s.data, c = ' ') :
    normalize_formula s = "" ∧
    lookupMolecule "" = none ∧
    (analyze_molecule s).formula = "" ∧
    (analyze_molecule s).bond_type = "Covalent (heuristic)" ∧
    (analyze_molecule s).lewis_ascii = "" ∧
    (analyze_molecule s).lewis_svg = make_lewis_svg "" "" ∧
    split_nl ("" : String).data = [[]] := by
  have hf : normalize_formula s = "" := by
    have hfil : s.data.filter (fun c => c ≠ ' ') = [] := by
      rw [List.filter_eq_nil_iff]
      intro a ha
      simp [hs a ha]
    rw [normalize_formula, hfil]
    rfl
  have hl : lookupMolecule "" = none := by decide
  refine ⟨hf, hl, ?_, ?_, ?_, ?_, by decide⟩ <;>
    rw [analyze_molecule, hf, hl]

/-- C10 witness: the space-only formula "  ". -/
theorem analyze_space_formula_witness :
    normalize_formula "  " = "" ∧
    lookupMolecule "" = none ∧
    (analyze_molecule "  ").formula = "" ∧
    (analyze_molecule "  ").bond_type = "Covalent (heuristic)" ∧
    (analyze_molecule "  ").lewis_ascii = "" ∧
    (analyze_molecule "  ").lewis_svg = make_lewis_svg "" "" ∧
    split_nl ("" : String).data = [[]] :=
  analyze_empty_or_space_formula "  " (by decide)

/-! ## Quiz generator lemmas -/

/-- `idxOf?` returns the index of the first occurrence: the element is
there, and at no earlier index. -/
theorem idxOf?_spec {α : Type} [DecidableEq α] (a : α) :
    ∀ (l : List α) (i : Nat), idxOf? a l = some i →
      l[i]? = some a ∧ ∀ j, j < i → l[j]? ≠ some a := by
  intro l
  induction l with
  | nil => intro i h; simp [idxOf?] at h
  | cons b bs ih =>
    intro i h
    rw [idxOf?] at h
    by_cases hb : b = a
    · rw [if_pos hb] at h
      obtain rfl : (0 : Nat) = i := Option.some.inj h
      subst hb
      exact ⟨by simp, fun j hj => absurd hj (by omega)⟩
    · rw [if_neg hb] at h
      cases hx : idxOf? a bs with
      | none => rw [hx] at h; simp at h
      | some k =>
        rw [hx] at h
        obtain rfl : k + 1 = i := by simpa using h
        obtain ⟨h1, h2⟩ := ih k hx
        refine ⟨by simpa using h1, ?_⟩
        intro j hj
        cases j with
        | zero => simpa using fun hba => hb hba
        | succ j' => simpa using h2 j' (by omega)

/-- `idxOf?` succeeds on members. -/
theorem idxOf?_isSome {α : Type} [DecidableEq α] {a : α} :
    ∀ {l : List α}, a ∈ l → ∃ i, idxOf? a l = some i := by
  intro l
  induction l with
  | nil => intro h; simp at h
  | cons b bs ih =>
    intro h
    rw [idxOf?]
    by_cases hb : b = a
    · exact ⟨0, by rw [if_pos hb]⟩
    · have hm : a ∈ bs := by
        rcases List.mem_cons.mp h with h1 | h1
        · exact absurd h1.symm hb
        · exact h1
      obtain ⟨i, hi⟩ := ih hm
      exact ⟨i + 1, by rw [if_neg hb, hi]; rfl⟩

/-- What a successful `mkQuizItem` returns: the template's question and
explanation, the shuffled options, and a correct index that points at the
first occurrence of the originally-correct option text. -/
theorem mkQuizItem_props (shuffle : List String → List String) (t : QuizTemplate)
    (item : QuizItem) (h : mkQuizItem shuffle t = some item) :
    item.question = t.q ∧ item.explanation = t.e ∧ item.options = shuffle t.options ∧
    ∃ ct, t.options[t.a]? = some ct ∧ item.options[item.correct_index]? = some ct ∧
      ∀ j, j < item.correct_index → item.options[j]? ≠ some ct := by
  rw [mkQuizItem] at h
  cases h1 : t.options[t.a]? with
  | none => rw [h1] at h; exact absurd h (by simp)
  | some ct =>
    rw [h1] at h
    dsimp only at h
    cases h2 : idxOf? ct (shuffle t.options) with
    | none => rw [h2] at h; exact absurd h (by simp)
    | some ci =>
      rw [h2] at h
      obtain rfl :
          ({ question := t.q, options := shuffle t.options, correct_index := ci,
             explanation := t.e } : QuizItem) = item := Option.some.inj h
      obtain ⟨hget, hfirst⟩ := idxOf?_spec ct (shuffle t.options) ci h2
      exact ⟨rfl, rfl, rfl, ct, rfl, hget, hfirst⟩

/-- `mkQuizItem` succeeds whenever the template's correct index is in
range and the shuffle is a permutation. -/
theorem mkQuizItem_isSome (shuffle : List String → List String) (t : QuizTemplate)
    (h1 : t.a < t.options.length) (h2 : (shuffle t.options).Perm t.options) :
    ∃ item, mkQuizItem shuffle t = some item := by
  rw [mkQuizItem]
  rw [List.getElem?_eq_getElem h1]
  dsimp only
  have hmem : t.options[t.a] ∈ shuffle t.options :=
    h2.mem_iff.mpr (List.getElem_mem h1)
  obtain ⟨i, hi⟩ := idxOf?_isSome hmem
  rw [hi]
  exact ⟨_, rfl⟩

/-- The loop succeeds on well-formed templates under permutation shuffles
and returns one item per template. -/
theorem mkItems_spec :
    ∀ (ts : List QuizTemplate), (∀ t ∈ ts, t.a < t.options.length) →
      ∀ (so : Nat → List String → List String), (∀ i l, (so i l).Perm l) →
        ∀ i, ∃ l, mkItems so i ts = some l ∧ l.length = ts.length
  | [], _, _, _, _ => ⟨[], rfl, rfl⟩
  | t :: ts, hWF, so, hso, i => by
    obtain ⟨item, hitem⟩ := mkQuizItem_isSome (so i) t (hWF t (by simp)) (hso i t.options)
    obtain ⟨l, hl, hlen⟩ :=
      mkItems_spec ts (fun u hu => hWF u (by simp [hu])) so hso (i + 1)
    refine ⟨item :: l, ?_, by simp [hlen]⟩
    rw [mkItems, hitem, hl]

/-- Every item a successful loop returns comes from one of the given
templates via `mkQuizItem` at some position. -/
theorem mkItems_mem :
    ∀ (so : Nat → List String → List String) (i : Nat) (ts : List QuizTemplate)
      (l : List QuizItem), mkItems so i ts = some l →
        ∀ item ∈ l, ∃ t ∈ ts, ∃ j, mkQuizItem (so j) t = some item
  | _, _, [], l, h => by
    obtain rfl : ([] : List QuizItem) = l := Option.some.inj h
    intro item him
    simp at him
  | so, i, t :: ts, l, h => by
    rw [mkItems] at h
    cases h1 : mkQuizItem (so i) t with
    | none => rw [h1] at h; exact absurd h (by simp)
    | some item0 =>
      rw [h1] at h
      cases h2 : mkItems so (i + 1) ts with
      | none => rw [h2] at h; exact absurd h (by simp)
      | some rest =>
        rw [h2] at h
        obtain rfl : item0 :: rest = l := Option.some.inj h
        intro item him
        rcases List.mem_cons.mp him with rfl | hm
        · exact ⟨t, by simp, i, h1⟩
        · obtain ⟨t', ht', j, hj⟩ := mkItems_mem so (i + 1) ts rest h2 item hm
          exact ⟨t', by simp [ht'], j, hj⟩

/-- A successful association-list lookup returns one of the stored
values. -/
theorem lookup_mem_values {α β : Type} [BEq α] :
    ∀ (l : List (α × β)) (a : α) (b : β),
      List.lookup a l = some b → b ∈ l.map Prod.snd
  | [], a, b, h => by simp [List.lookup] at h
  | (k, v) :: es, a, b, h => by
    rw [List.lookup] at h
    cases hk : (a == k) with
    | true =>
      rw [hk] at h
      obtain rfl : v = b := Option.some.inj h
      simp
    | false =>
      rw [hk] at h
      simpa using Or.inr (lookup_mem_values es a b h)

/-- A two-element template list is well-formed when both entries are. -/
theorem pair_bank_WF (t1 t2 : QuizTemplate) (h1 : t1.a < t1.options.length)
    (h2 : t2.a < t2.options.length) : ∀ t ∈ [t1, t2], t.a < t.options.length := by
  intro t ht
  rcases List.mem_cons.mp ht with rfl | ht
  · exact h1
  · rcases List.mem_cons.mp ht with rfl | ht
    · exact h2
    · simp at ht

/-- Every bank `generate_quiz` can select (a stored topic's bank or the
fallback) has well-formed templates: correct index in range. -/
theorem bankFor_WF (topic : String) : ∀ t ∈ bankFor topic, t.a < t.options.length := by
  intro t ht
  rw [bankFor] at ht
  cases hb : List.lookup topic QUIZ_BANK with
  | none =>
    rw [hb] at ht
    dsimp only at ht
    rw [fallbackBank] at ht
    exact pair_bank_WF _ _ (show (0 : Nat) < 4 by decide) (show (0 : Nat) < 4 by decide) t ht
  | some b =>
    rw [hb] at ht
    dsimp only at ht
    have hmem := lookup_mem_values QUIZ_BANK topic b hb
    rw [QUIZ_BANK] at hmem
    simp only [List.map_cons, List.map_nil, List.mem_cons, List.not_mem_nil, or_false] at hmem
    rcases hmem with rfl | rfl | rfl <;>
      rw [if_neg (List.cons_ne_nil _ _)] at ht <;>
      exact pair_bank_WF _ _ (show (0 : Nat) < 4 by decide) (show (0 : Nat) < 4 by decide) t ht

/-- Every bank `generate_quiz` can select has exactly two templates. -/
theorem bankFor_length (topic : String) : (bankFor topic).length = 2 := by
  rw [bankFor]
  cases hb : List.lookup topic QUIZ_BANK with
  | none => rfl
  | some b =>
    dsimp only
    have hmem := lookup_mem_values QUIZ_BANK topic b hb
    rw [QUIZ_BANK] at hmem
    simp only [List.map_cons, List.map_nil, List.mem_cons, List.not_mem_nil, or_false] at hmem
    rcases hmem with rfl | rfl | rfl <;> rfl

/-- Master specification of `generate_quiz` under permutation shuffles:
it succeeds, returns exactly the clamped count of items, and every item
is produced by `mkQuizItem` from a template of the selected bank. -/
theorem generate_quiz_spec (topic : String) (c : Int)
    (sp : List QuizTemplate → List QuizTemplate)
    (so : Nat → List String → List String)
    (hsp : ∀ l, (sp l).Perm l) (hso : ∀ i l, (so i l).Perm l) :
    ∃ l, generate_quiz topic c sp so = some l ∧ l.length = clampCount c ∧
      ∀ item ∈ l, ∃ t ∈ bankFor (pyStrip topic), ∃ j, mkQuizItem (so j) t = some item := by
  set n := clampCount c with hn
  set bank := bankFor (pyStrip topic) with hbank
  set pool := (List.replicate ((n + bank.length - 1) / bank.length) bank).flatten with hpool
  have hbl : bank.length = 2 := bankFor_length _
  have hpl : n ≤ pool.length := by
    rw [hpool, List.length_flatten, List.map_replicate, List.sum_replicate, smul_eq_mul, hbl]
    omega
  have hsel_len : ((sp pool).take n).length = n := by
    rw [List.length_take, (hsp pool).length_eq]
    omega
  have hmem_bank : ∀ t ∈ (sp pool).take n, t ∈ bank := by
    intro t ht
    have h1 : t ∈ sp pool := List.take_subset _ _ ht
    have h2 : t ∈ pool := (hsp pool).mem_iff.mp h1
    rw [hpool, List.mem_flatten] at h2
    obtain ⟨l', hl', htl'⟩ := h2
    rw [List.mem_replicate] at hl'
    obtain ⟨-, rfl⟩ := hl'
    exact htl'
  have hselWF : ∀ t ∈ (sp pool).take n, t.a < t.options.length :=
    fun t ht => bankFor_WF _ t (hmem_bank t ht)
  obtain ⟨l, hl, hlen⟩ := mkItems_spec _ hselWF so hso 0
  refine ⟨l, hl, by rw [hlen, hsel_len], ?_⟩
  intro item hitem
  obtain ⟨t, ht, j, hj⟩ := mkItems_mem so 0 _ l hl item hitem
  exact ⟨t, hmem_bank t ht, j, hj⟩

/-- C2 counterexample: at count = 0 the generator returns 5 items (shown
with identity shuffles), not the 1 item the claimed clamping predicts. -/
theorem quiz_count_zero_gives_five_items :
    (generate_quiz "Ionic Bonding" 0 (fun x => x) (fun _ x => x)).map List.length = some 5 ∧
    (5 : Nat) ≠ 1 := by
  exact ⟨by decide, by decide⟩

/-- C2 (amended): `count = max(1, min(10, count or 5))`, so count = 0 is
replaced by the default 5 before clamping, and every other out-of-range
count is clamped to the nearest boundary; the generator returns exactly
that many items, for every topic and all permutation shuffles (so
count = 0 yields 5 items and count = 99 yields 10). -/
theorem quiz_count_out_of_range (topic : String) (c : Int)
    (sp : List QuizTemplate → List QuizTemplate)
    (so : Nat → List String → List String)
    (hsp : ∀ l, (sp l).Perm l) (hso : ∀ i l, (so i l).Perm l)
    (hout : c < 1 ∨ 10 < c) :
    ∃ l, generate_quiz topic c sp so = some l ∧
      l.length = if c = 0 then 5 else if c < 1 then 1 else 10 := by
  obtain ⟨l, h1, h2, -⟩ := generate_quiz_spec topic c sp so hsp hso
  refine ⟨l, h1, ?_⟩
  rw [h2, clampCount]
  split_ifs <;> omega

/-- C2 witness: count = 99 yields exactly 10 items. -/
theorem quiz_count_out_of_range_witness :
    ∃ l, generate_quiz "Ionic Bonding" 99 (fun x => x) (fun _ x => x) = some l ∧
      l.length = 10 := by
  obtain ⟨l, h1, h2⟩ :=
    quiz_count_out_of_range "Ionic Bonding" 99 (fun x => x) (fun _ x => x)
      (fun l => List.Perm.refl l) (fun _ l => List.Perm.refl l) (by decide)
  exact ⟨l, h1, h2⟩

/-- C3: for every generated quiz item — whatever the count, topic and
option shuffles, with the pool shuffle a permutation —
`options[correct_index]` is the text of the option originally marked
correct in its source template (`options[a]`), and `correct_index` is
the index of that text's first occurrence in the shuffled options. -/
theorem quiz_correct_index_first_occurrence (topic : String) (c : Int)
    (sp : List QuizTemplate → List QuizTemplate)
    (so : Nat → List String → List String)
    (hsp : ∀ l, (sp l).Perm l) (l : List QuizItem)
    (hgen : generate_quiz topic c sp so = some l) :
    ∀ item ∈ l, ∃ t ∈ bankFor (pyStrip topic), item.question = t.q ∧
      ∃ ct, t.options[t.a]? = some ct ∧
        item.options[item.correct_index]? = some ct ∧
        ∀ j, j < item.correct_index → item.options[j]? ≠ some ct := by
  intro item hitem
  have hgen' :
      mkItems so 0
        ((sp ((List.replicate
            ((clampCount c + (bankFor (pyStrip topic)).length - 1) /
              (bankFor (pyStrip topic)).length) (bankFor (pyStrip topic))).flatten)).take
          (clampCount c)) = some l := hgen
  obtain ⟨t, ht, j, hj⟩ := mkItems_mem so 0 _ l hgen' item hitem
  have h1 := List.take_subset _ _ ht
  have h2 := (hsp _).mem_iff.mp h1
  rw [List.mem_flatten] at h2
  obtain ⟨l', hl', htl'⟩ := h2
  rw [List.mem_replicate] at hl'
  obtain ⟨-, rfl⟩ := hl'
  obtain ⟨hq, -, -, ct, hct, hget, hfirst⟩ := mkQuizItem_props _ _ _ hj
  exact ⟨t, htl', hq, ct, hct, hget, hfirst⟩

/-- C3 witness: topic "Ionic Bonding", count 1, identity shuffles; the
single generated item carries correct index 0, pointing at "Ionic". -/
theorem quiz_correct_index_witness :
    ∃ t ∈ bankFor (pyStrip "Ionic Bonding"), sampleQuizItem.question = t.q ∧
      ∃ ct, t.options[t.a]? = some ct ∧
        sampleQuizItem.options[sampleQuizItem.correct_index]? = some ct ∧
        ∀ j, j < sampleQuizItem.correct_index → sampleQuizItem.options[j]? ≠ some ct := by
  exact quiz_correct_index_first_occurrence "Ionic Bonding" 1 (fun x => x) (fun _ x => x)
    (fun l => List.Perm.refl l) [sampleQuizItem] (by decide) sampleQuizItem
    (List.mem_singleton.mpr rfl)

/-- C4: for every topic, every count in [1,10] and all permutation
shuffles the generator returns exactly count items; when the topic is
not in the quiz bank, every returned item is drawn from the fixed
two-template fallback list: same question and explanation as a fallback
template, options a permutation of its options. -/
theorem quiz_count_and_fallback (topic : String) (c : Int)
    (sp : List QuizTemplate → List QuizTemplate)
    (so : Nat → List String → List String)
    (hsp : ∀ l, (sp l).Perm l) (hso : ∀ i l, (so i l).Perm l)
    (h1 : 1 ≤ c) (h2 : c ≤ 10) :
    ∃ l, generate_quiz topic c sp so = some l ∧ l.length = c.toNat ∧
      (List.lookup (pyStrip topic) QUIZ_BANK = none →
        ∀ item ∈ l, ∃ t ∈ fallbackBank (pyStrip topic),
          item.question = t.q ∧ item.explanation = t.e ∧ item.options.Perm t.options) := by
  obtain ⟨l, hgen, hlen, hmem⟩ := generate_quiz_spec topic c sp so hsp hso
  refine ⟨l, hgen, ?_, ?_⟩
  · rw [hlen, clampCount, if_neg (by omega : ¬c = 0)]
    omega
  · intro hnone item hitem
    obtain ⟨t, ht, j, hj⟩ := hmem item hitem
    rw [bankFor, hnone] at ht
    obtain ⟨hq, he, ho, -⟩ := mkQuizItem_props _ _ _ hj
    exact ⟨t, ht, hq, he, by rw [ho]; exact hso j t.options⟩

/-- C4 witness: unknown topic "Nonexistent" with count 2. -/
theorem quiz_fallback_witness :
    ∃ l, generate_quiz "Nonexistent" 2 (fun x => x) (fun _ x => x) = some l ∧
      l.length = (2 : Int).toNat ∧
      (List.lookup (pyStrip "Nonexistent") QUIZ_BANK = none →
        ∀ item ∈ l, ∃ t ∈ fallbackBank (pyStrip "Nonexistent"),
          item.question = t.q ∧ item.explanation = t.e ∧ item.options.Perm t.options) := by
  exact quiz_count_and_fallback "Nonexistent" 2 (fun x => x) (fun _ x => x)
    (fun l => List.Perm.refl l) (fun _ l => List.Perm.refl l) (by decide) (by decide)

/-- C8: the rendered artifact is the data-URI marker followed by a base64
payload; that payload decodes to the UTF-8 bytes of SVG markup whose
canvas width is (longest line length × 12) + 2×16 and height is
(line count × 22) + 2×16, and whose markup is a background rectangle
followed by one text element per input line, in order, at x = 16 and
y = 16 + (row index + 1) × 22, with the line's text escaped. -/
theorem render_svg_structure (f a : String) :
    ∃ payload : List Char,
      make_lewis_svg f a = "data:image/svg+xml;base64," ++ String.mk payload ∧
      b64Decode payload = some (utf8Bytes (svgMarkup (split_nl a.data))) ∧
      svgWidth (split_nl a.data) = maxLineLen (split_nl a.data) * 12 + 2 * 16 ∧
      svgHeight (split_nl a.data) = (split_nl a.data).length * 22 + 2 * 16 ∧
      svgMarkup (split_nl a.data) =
        "<svg xmlns='http://www.w3.org/2000/svg' width='" ++
          toString (svgWidth (split_nl a.data)) ++ "' height='" ++
          toString (svgHeight (split_nl a.data)) ++ "'>\n      <rect x='0' y='0' width='" ++
          toString (svgWidth (split_nl a.data)) ++ "' height='" ++
          toString (svgHeight (split_nl a.data)) ++
          "' fill='white' stroke='#e5e7eb'/>\n      " ++
          String.join ((split_nl a.data).enum.map
            (fun p => "<text x='16' y='" ++ toString (16 + (p.1 + 1) * 22) ++
              "' font-family='IBM Plex Mono, monospace' font-size='18'>" ++ esc p.2 ++
              "</text>")) ++
          "\n    </svg>" := by
  refine ⟨b64Encode (utf8Bytes (svgMarkup (split_nl a.data))), rfl, ?_, rfl, rfl, ?_⟩
  · exact b64_roundtrip _ (utf8Bytes_lt _)
  · rfl
